import Mathlib

/-!
Verification of lxqt-brightness-notifier (src/main.rs) against its
natural-language specification.

The program is a single-shot CLI: a clap-derived argument parser
(struct Args), an adapter over the external program xbacklight
(get_current_brightness, adjust_brightness, set_brightness), a
notifier (display_notification) and a straight-line main.

The shallow embedding below models:
  * the clap parser for the Args struct, for whitespace-separated
    argument tokens (the forms exercised by the spec and claims);
  * the numeric conversion in get_current_brightness, with the f64
    value represented as a rational number (the claims at stake -
    failure conditions and saturation of the `as u8` cast - do not
    depend on binary floating-point representation error);
  * the side effects of main as an explicit event trace (spawned
    xbacklight invocations, notification dispatches, stdout/stderr
    lines) driven by an environment giving each external
    collaborator's response.
-/

namespace BrightnessNotifier

/-- Numeric value of a list of decimal digit characters. -/
def digitsVal (cs : List Char) : Nat :=
  cs.foldl (fun a c => a * 10 + (c.toNat - Char.toNat (Char.ofNat 48))) 0

/-- Decimal natural-number literal: nonempty, all digits.
Models the fragment of Rust unsigned-integer FromStr used by clap
value parsers on the inputs at stake. -/
def parseNatStr (s : String) : Option Nat :=
  let cs := s.toList
  if cs.isEmpty then none
  else if cs.all Char.isDigit then some (digitsVal cs) else none

/-- clap value parser for u8 fields (increase / decrease):
decimal value that fits in eight bits. -/
def parseU8 (s : String) : Option Nat :=
  match parseNatStr s with
  | some n => if n ≤ 255 then some n else none
  | none => none

/-- clap value parser `u8 .range(1..=100)` for --set. -/
def parseSetVal (s : String) : Option Nat :=
  match parseU8 s with
  | some n => if 1 ≤ n ∧ n ≤ 100 then some n else none
  | none => none

/-- clap value parser `u32 .range(..=60000)` for --fade. -/
def parseFadeVal (s : String) : Option Nat :=
  match parseNatStr s with
  | some n => if n ≤ 60000 then some n else none
  | none => none

/-- clap value parser `u32 .range(1..=200)` for --steps. -/
def parseStepsVal (s : String) : Option Nat :=
  match parseNatStr s with
  | some n => if 1 ≤ n ∧ n ≤ 200 then some n else none
  | none => none

/-- clap value parser for the i32 --timeout field: optional minus
sign, digits, within the i32 range. -/
def parseI32 (s : String) : Option Int :=
  match s.toList with
  | Char.ofNat 45 :: rest =>
    if rest.isEmpty then none
    else if rest.all Char.isDigit then
      let v : Int := -(digitsVal rest : Int)
      if -2147483648 ≤ v then some v else none
    else none
  | cs =>
    if cs.isEmpty then none
    else if cs.all Char.isDigit then
      let v : Int := (digitsVal cs : Int)
      if v ≤ 2147483647 then some v else none
    else none

/-- The parsed argument record, mirroring `struct Args` in
src/main.rs (fields increase, decrease, set, get, timeout,
fade_time, steps with their defaults already applied). -/
structure Args where
  increase : Option Nat
  decrease : Option Nat
  set : Option Nat
  get : Bool
  timeout : Int
  fade_time : Nat
  steps : Nat
deriving DecidableEq, Repr

/-- Accumulator for the token pass: each option is absent until its
flag is seen (duplicate occurrences are a clap error). -/
structure RawArgs where
  increase : Option Nat := none
  decrease : Option Nat := none
  set : Option Nat := none
  get : Bool := false
  timeout : Option Int := none
  fade_time : Option Nat := none
  steps : Option Nat := none
deriving DecidableEq, Repr

/-- Would clap refuse to consume this token as an option value?
Tokens beginning with a hyphen look like flags and are not taken as
values (the program sets neither allow_hyphen_values nor
allow_negative_numbers). -/
def flagLike (s : String) : Bool :=
  match s.toList with
  | c :: _ => c = Char.ofNat 45
  | [] => false

/-- The token pass of the clap parser for `struct Args`.

`-i`/`--increase` and `-d`/`--decrease` have `num_args = 0..=1` with
`default_missing_value = "5"`: a following non-flag-like token is
consumed as the value, otherwise the value 5 is recorded.
`-s`, `-t`, `-f`, `-p` (and long forms) require a value token.
Unknown tokens, duplicate flags, missing or invalid values are
errors. -/
def parseLoop : List String → RawArgs → Except String RawArgs
  | [], acc => Except.ok acc
  | t :: rest, acc =>
    if t = "-i" ∨ t = "--increase" then
      if acc.increase.isSome then Except.error "increase given twice" else
      match rest with
      | [] => Except.ok { acc with increase := some 5 }
      | v :: rest2 =>
        if flagLike v then parseLoop (v :: rest2) { acc with increase := some 5 }
        else match parseU8 v with
          | some n => parseLoop rest2 { acc with increase := some n }
          | none => Except.error "invalid value for increase"
    else if t = "-d" ∨ t = "--decrease" then
      if acc.decrease.isSome then Except.error "decrease given twice" else
      match rest with
      | [] => Except.ok { acc with decrease := some 5 }
      | v :: rest2 =>
        if flagLike v then parseLoop (v :: rest2) { acc with decrease := some 5 }
        else match parseU8 v with
          | some n => parseLoop rest2 { acc with decrease := some n }
          | none => Except.error "invalid value for decrease"
    else if t = "-s" ∨ t = "--set" then
      if acc.set.isSome then Except.error "set given twice" else
      match rest with
      | [] => Except.error "missing value for set"
      | v :: rest2 =>
        if flagLike v then Except.error "missing value for set"
        else match parseSetVal v with
          | some n => parseLoop rest2 { acc with set := some n }
          | none => Except.error "invalid value for set"
    else if t = "-g" ∨ t = "--get" then
      if acc.get then Except.error "get given twice"
      else parseLoop rest { acc with get := true }
    else if t = "-t" ∨ t = "--timeout" then
      if acc.timeout.isSome then Except.error "timeout given twice" else
      match rest with
      | [] => Except.error "missing value for timeout"
      | v :: rest2 =>
        if flagLike v then Except.error "missing value for timeout"
        else match parseI32 v with
          | some n => parseLoop rest2 { acc with timeout := some n }
          | none => Except.error "invalid value for timeout"
    else if t = "-f" ∨ t = "--fade" then
      if acc.fade_time.isSome then Except.error "fade given twice" else
      match rest with
      | [] => Except.error "missing value for fade"
      | v :: rest2 =>
        if flagLike v then Except.error "missing value for fade"
        else match parseFadeVal v with
          | some n => parseLoop rest2 { acc with fade_time := some n }
          | none => Except.error "invalid value for fade"
    else if t = "-p" ∨ t = "--steps" then
      if acc.steps.isSome then Except.error "steps given twice" else
      match rest with
      | [] => Except.error "missing value for steps"
      | v :: rest2 =>
        if flagLike v then Except.error "missing value for steps"
        else match parseStepsVal v with
          | some n => parseLoop rest2 { acc with steps := some n }
          | none => Except.error "invalid value for steps"
    else Except.error "unexpected argument"

/-- Conflict checks (the conflicts_with_all attributes of Args) and
defaults (default_value_t of timeout, fade_time, steps). Note the
attributes declare no conflict between increase and decrease. -/
def finalize (r : RawArgs) : Except String Args :=
  if r.increase.isSome ∧ r.set.isSome then Except.error "increase conflicts with set"
  else if r.increase.isSome ∧ r.get then Except.error "increase conflicts with get"
  else if r.decrease.isSome ∧ r.set.isSome then Except.error "decrease conflicts with set"
  else if r.decrease.isSome ∧ r.get then Except.error "decrease conflicts with get"
  else if r.set.isSome ∧ r.get then Except.error "set conflicts with get"
  else Except.ok
    { increase := r.increase
      decrease := r.decrease
      set := r.set
      get := r.get
      timeout := r.timeout.getD 2000
      fade_time := r.fade_time.getD 100
      steps := r.steps.getD 25 }

/-- `Args::parse()` on a token vector: token pass, then conflicts
and defaults. -/
def parseArgs (argv : List String) : Except String Args :=
  match parseLoop argv {} with
  | Except.ok r => finalize r
  | Except.error e => Except.error e

/-- Splits a character list into its longest decimal-digit prefix
and the remainder. -/
def splitDigits : List Char → List Char × List Char
  | [] => ([], [])
  | c :: cs =>
    if c.isDigit then
      let p := splitDigits cs
      (c :: p.1, p.2)
    else ([], c :: cs)

/-- Rust `str::trim` on the underlying character list: drop
whitespace from both ends. -/
def trimChars (cs : List Char) : List Char :=
  ((cs.dropWhile Char.isWhitespace).reverse.dropWhile Char.isWhitespace).reverse

/-- Rust `str::trim`. -/
def rustTrim (s : String) : String := String.mk (trimChars s.toList)

/-- Mantissa of a decimal literal: digits, optionally with a point
and fraction digits; at least one digit overall. Returns the
combined digit value (integer and fraction digits concatenated),
the number of fraction digits, and the unconsumed remainder. -/
def parseMantissa (cs : List Char) : Option (Nat × Nat × List Char) :=
  let p := splitDigits cs
  match p.2 with
  | Char.ofNat 46 :: r2 =>
    let q := splitDigits r2
    if p.1.isEmpty ∧ q.1.isEmpty then none
    else some (digitsVal (p.1 ++ q.1), q.1.length, q.2)
  | _ => if p.1.isEmpty then none else some (digitsVal p.1, 0, p.2)

/-- Exponent part of a decimal literal (after the e/E): optional
sign and a nonempty run of digits consuming the whole remainder. -/
def parseExponent (cs : List Char) : Option Int :=
  let p : Bool × List Char :=
    match cs with
    | Char.ofNat 45 :: r => (true, r)
    | Char.ofNat 43 :: r => (false, r)
    | r => (false, r)
  let q := splitDigits p.2
  if q.1.isEmpty ∨ ¬ q.2.isEmpty then none
  else some (if p.1 then -(digitsVal q.1 : Int) else (digitsVal q.1 : Int))

/-- The rational value `(-1)^neg * digits * 10^scale` of a decimal
literal, assembled from its parts. -/
def decValue (neg : Bool) (digits : Nat) (scale : Int) : ℚ :=
  let mant : Int := if neg then -(digits : Int) else (digits : Int)
  if 0 ≤ scale then ((mant * 10 ^ scale.toNat : Int) : ℚ)
  else mkRat mant (10 ^ (-scale).toNat)

/-- Model of `output_str.trim().parse::<f64>()` on finite decimal
literals: optional sign, mantissa, optional exponent. The value is
kept as an exact rational; the claims proved below (when the parse
fails, and that the subsequent `round() as u8` saturates into
[0, 255]) are insensitive to the rounding that stores the value in
binary floating point. The non-finite literals accepted by Rust
(inf, NaN, ...) are outside the model. -/
def parseDecimal (s : String) : Option ℚ :=
  let p1 : Bool × List Char :=
    match s.toList with
    | Char.ofNat 45 :: r => (true, r)
    | Char.ofNat 43 :: r => (false, r)
    | r => (false, r)
  match parseMantissa p1.2 with
  | none => none
  | some (digits, fracLen, rest) =>
    match rest with
    | [] => some (decValue p1.1 digits (-(fracLen : Int)))
    | e :: r =>
      if e = Char.ofNat 101 ∨ e = Char.ofNat 69 then
        match parseExponent r with
        | some ex => some (decValue p1.1 digits (ex - (fracLen : Int)))
        | none => none
      else none

/-- Rust `f64::round` (round half away from zero) on a rational,
computed by integer division on the numerator and denominator; the
lemma roundRust_eq below identifies it with the usual floor /
ceiling description. -/
def roundRust (q : ℚ) : Int :=
  if 0 ≤ q then (2 * q.num + q.den) / (2 * q.den)
  else -((2 * -q.num + q.den) / (2 * q.den))

/-- Rust `as u8` on a (finite) float value: saturating conversion,
negative values to 0 and values above 255 to 255. -/
def toU8sat (i : Int) : Nat := min i.toNat 255

/-- Captured output of a spawned process: exit-status success flag
and the bytes on standard output. -/
structure ProcOutput where
  success : Bool
  stdout : String
deriving DecidableEq, Repr

/-- Responses of the external collaborators during one run: exit
status of an `xbacklight -set` call, of an `xbacklight -inc`/`-dec`
call, the outcome of spawning `xbacklight -get` (`none` means the
spawn itself failed), and the result of `Notification::show`
(`some e` is the error message of `Err(e)`). -/
structure Env where
  setOk : Bool
  adjustOk : Bool
  getOutput : Option ProcOutput
  notifyErr : Option String
deriving DecidableEq, Repr

/-- An observable side effect of the program: an xbacklight
invocation with its argument vector, a notification dispatch with
its fields, or a line on stdout / stderr. -/
inductive Event where
  | spawn (argv : List String) : Event
  | notify (summary body icon : String) (timeout : Int) (id : Nat) : Event
  | stdout (line : String) : Event
  | stderr (line : String) : Event
deriving DecidableEq, Repr

/-- `fn get_current_brightness() -> Option<u8>`: spawn
`xbacklight -get`, require a success exit status, trim stdout,
parse as a decimal number, round and convert to u8. -/
def get_current_brightness (env : Env) : Option Nat :=
  match env.getOutput with
  | none => none
  | some out =>
    if !out.success then none
    else
      match parseDecimal (rustTrim out.stdout) with
      | none => none
      | some v => some (toU8sat (roundRust v))

/-- The icon chosen in `fn display_notification` from the
brightness just read. -/
def brightnessIcon (brightness : Nat) : String :=
  if brightness < 33 then "display-brightness-low"
  else if brightness < 66 then "display-brightness-medium"
  else "display-brightness-high"

/-- The notification body `format!("{}% Brightness", brightness)`. -/
def brightnessBody (brightness : Nat) : String :=
  toString brightness ++ "% Brightness"

/-- `fn display_notification(timeout: i32) -> Option<u8>`: read the
brightness (one `xbacklight -get` spawn attempt), and on success
dispatch a notification with summary "Brightness", the formatted
body, the banded icon, the caller's timeout and id 1; a failed
dispatch reports on stderr and yields None, a successful one prints
the current brightness on stdout. Returns the event trace next to
the Rust return value. -/
def display_notification (timeout : Int) (env : Env) : List Event × Option Nat :=
  match get_current_brightness env with
  | none => ([Event.spawn ["-get"]], none)
  | some brightness =>
    let body := brightnessBody brightness
    let icon := brightnessIcon brightness
    match env.notifyErr with
    | some e =>
      ([Event.spawn ["-get"],
        Event.notify "Brightness" body icon timeout 1,
        Event.stderr ("Error: failed to display notification: " ++ e ++ ".")], none)
    | none =>
      ([Event.spawn ["-get"],
        Event.notify "Brightness" body icon timeout 1,
        Event.stdout ("Current brightness: " ++ toString brightness ++ "%")],
       some brightness)

/-- The argument vector `fn adjust_brightness` passes to
xbacklight, or `none` when it returns early: `-inc` with the
increase value when present, else `-dec` with the decrease value
when present, each followed by `-time` and `-steps`; `none` when
neither adjustment was requested. -/
def adjust_cmd (args : Args) : Option (List String) :=
  match args.increase with
  | some inc =>
    some ["-inc", toString inc, "-time", toString args.fade_time,
          "-steps", toString args.steps]
  | none =>
    match args.decrease with
    | some dec =>
      some ["-dec", toString dec, "-time", toString args.fade_time,
            "-steps", toString args.steps]
    | none => none

/-- `fn adjust_brightness(args: &Args) -> bool` with its trace: runs
the adjustment command when one is requested and reports the exit
status; returns true with no spawn when neither flag is present. -/
def adjust_brightness (args : Args) (env : Env) : List Event × Bool :=
  match adjust_cmd args with
  | some argv => ([Event.spawn argv], env.adjustOk)
  | none => ([], true)

/-- `fn set_brightness(brightness: u8, args: &Args) -> bool` with
its trace: spawns `xbacklight -set <brightness> -time <fade>
-steps <steps>` and reports the exit status. -/
def set_brightness (brightness : Nat) (args : Args) (env : Env) : List Event × Bool :=
  ([Event.spawn ["-set", toString brightness, "-time", toString args.fade_time,
                 "-steps", toString args.steps]],
   env.setOk)

/-- `fn main` after argument parsing: the get fast path, else the
set / adjust mutation with its failure diagnostics, then the final
read-and-notify. Returns the event trace and the process exit
code. -/
def mainRun (args : Args) (env : Env) : List Event × Nat :=
  if args.get then
    let p := display_notification args.timeout env
    (p.1, if p.2.isNone then 1 else 0)
  else
    match args.set with
    | some target =>
      let p := set_brightness target args env
      if !p.2 then
        (p.1 ++ [Event.stderr ("Error: failed to set brightness to "
                               ++ toString target ++ ".")], 1)
      else
        let q := display_notification args.timeout env
        (p.1 ++ q.1, if q.2.isNone then 1 else 0)
    | none =>
      if args.increase.isSome ∨ args.decrease.isSome then
        let p := adjust_brightness args env
        if !p.2 then
          (p.1 ++ [Event.stderr "Error: failed to adjust the brightness level."], 1)
        else
          let q := display_notification args.timeout env
          (p.1 ++ q.1, if q.2.isNone then 1 else 0)
      else
        let q := display_notification args.timeout env
        (q.1, if q.2.isNone then 1 else 0)

/-- The whole program on an argument vector: a clap parse error
prints usage and exits with code 2 before any external call;
otherwise main runs on the parsed arguments. -/
def run_program (argv : List String) (env : Env) : List Event × Nat :=
  match parseArgs argv with
  | Except.error _ => ([], 2)
  | Except.ok args => mainRun args env

/-- Is this event a brightness read (`xbacklight -get` spawn)? -/
def Event.isGetCall : Event → Bool
  | Event.spawn argv => argv = ["-get"]
  | _ => false

/-- Is this event a brightness mutation (`xbacklight` spawn whose
first argument is -set, -inc or -dec)? -/
def Event.isMutCall : Event → Bool
  | Event.spawn (a :: _) => a = "-set" ∨ a = "-inc" ∨ a = "-dec"
  | _ => false

/-- Is this event a notification dispatch? -/
def Event.isNotify : Event → Bool
  | Event.notify _ _ _ _ _ => true
  | _ => false

/-- Phase discipline of a trace: no mutation call occurs after any
read, and neither a read nor a mutation occurs after any
notification dispatch; hence mutations complete before the read and
the read before the notification. -/
def phaseOrdered : List Event → Bool
  | [] => true
  | e :: rest =>
    (if e.isGetCall then rest.all (fun x => !x.isMutCall) else true) &&
    (if e.isNotify then rest.all (fun x => !x.isMutCall && !x.isGetCall) else true) &&
    phaseOrdered rest

end BrightnessNotifier

namespace BrightnessNotifier

/-- An environment whose xbacklight responds to every call with
exit status 0, prints `s` on `-get`, and whose notification bus
accepts the dispatch. -/
def envOutput (s : String) : Env :=
  { setOk := true, adjustOk := true,
    getOutput := some { success := true, stdout := s }, notifyErr := none }

/-- Sanity check of the executable rounding function: it is
round-half-away-from-zero, Rust's `f64::round`. -/
theorem roundRust_eq (q : ℚ) :
    roundRust q = if 0 ≤ q then ⌊q + 1 / 2⌋ else ⌈q - 1 / 2⌉ := by
  have key : ∀ r : ℚ, ⌊r + 1 / 2⌋ = (2 * r.num + r.den) / (2 * r.den) := by
    intro r
    have hden : ((r.den : ℚ)) ≠ 0 := Nat.cast_ne_zero.mpr r.den_ne_zero
    have h1 : r + 1 / 2 = ((2 * r.num + (r.den : Int) : Int) : ℚ) / ((2 * r.den : ℕ) : ℚ) := by
      conv_lhs => rw [← Rat.num_div_den r]
      push_cast
      field_simp
      ring
    rw [h1, Rat.floor_intCast_div_natCast]
    push_cast
    ring_nf
  unfold roundRust
  by_cases h : 0 ≤ q
  · rw [if_pos h, if_pos h, key q]
  · rw [if_neg h, if_neg h]
    have h2 : ⌈q - 1 / 2⌉ = -⌊-q + 1 / 2⌋ := by
      rw [show -q + 1 / 2 = -(q - 1 / 2) by ring, Int.floor_neg, neg_neg]
    rw [h2, key (-q)]
    simp [Rat.num_neg_eq_neg_num, Rat.neg_den]

end BrightnessNotifier

namespace BrightnessNotifier

/-- C4: for every brightness value read from the controller, the
notification icon is chosen by band: display-brightness-low below
33, display-brightness-medium from 33 up to but excluding 66, and
display-brightness-high from 66 on. -/
theorem C4_icon_banding (n : Nat) :
    (n < 33 → brightnessIcon n = "display-brightness-low") ∧
    (33 ≤ n → n < 66 → brightnessIcon n = "display-brightness-medium") ∧
    (66 ≤ n → brightnessIcon n = "display-brightness-high") := by
  unfold brightnessIcon
  refine ⟨fun h => by rw [if_pos h], fun h1 h2 => ?_, fun h => ?_⟩
  · rw [if_neg (by omega), if_pos h2]
  · rw [if_neg (by omega), if_neg (by omega)]

/-- Witness for C4: the band boundaries 0, 32, 33, 65, 66, 100 map
to low, low, medium, medium, high, high. -/
theorem C4_icon_banding_witness :
    brightnessIcon 0 = "display-brightness-low" ∧
    brightnessIcon 32 = "display-brightness-low" ∧
    brightnessIcon 33 = "display-brightness-medium" ∧
    brightnessIcon 65 = "display-brightness-medium" ∧
    brightnessIcon 66 = "display-brightness-high" ∧
    brightnessIcon 100 = "display-brightness-high" :=
  ⟨(C4_icon_banding 0).1 (by decide),
   (C4_icon_banding 32).1 (by decide),
   (C4_icon_banding 33).2.1 (by decide) (by decide),
   (C4_icon_banding 65).2.1 (by decide) (by decide),
   (C4_icon_banding 66).2.2 (by decide),
   (C4_icon_banding 100).2.2 (by decide)⟩

/-- C6: a bare -i parses to an increase of 5, a bare -d to a
decrease of 5, and omitting -f, -p, -t leaves fade 100 ms, 25 steps
and a 2000 ms notification timeout; a bare -i followed by another
flag also takes the default 5. -/
theorem C6_parser_defaults :
    parseArgs ["-i"] = Except.ok
      { increase := some 5, decrease := none, set := none, get := false,
        timeout := 2000, fade_time := 100, steps := 25 } ∧
    parseArgs ["-d"] = Except.ok
      { increase := none, decrease := some 5, set := none, get := false,
        timeout := 2000, fade_time := 100, steps := 25 } ∧
    parseArgs [] = Except.ok
      { increase := none, decrease := none, set := none, get := false,
        timeout := 2000, fade_time := 100, steps := 25 } ∧
    parseArgs ["-i", "-t", "500"] = Except.ok
      { increase := some 5, decrease := none, set := none, get := false,
        timeout := 500, fade_time := 100, steps := 25 } :=
  ⟨rfl, rfl, rfl, rfl⟩

/-- C7: out-of-range option values -s 0, -s 101, -f 60001, -p 0 and
-p 201 are rejected by the parser; the run exits 2 with no call to
xbacklight or the notifier. -/
theorem C7_range_rejection :
    (parseArgs ["-s", "0"]).isOk = false ∧
    (parseArgs ["-s", "101"]).isOk = false ∧
    (parseArgs ["-f", "60001"]).isOk = false ∧
    (parseArgs ["-p", "0"]).isOk = false ∧
    (parseArgs ["-p", "201"]).isOk = false ∧
    (∀ env, run_program ["-s", "0"] env = ([], 2)) ∧
    (∀ env, run_program ["-s", "101"] env = ([], 2)) ∧
    (∀ env, run_program ["-f", "60001"] env = ([], 2)) ∧
    (∀ env, run_program ["-p", "0"] env = ([], 2)) ∧
    (∀ env, run_program ["-p", "201"] env = ([], 2)) :=
  ⟨by decide, by decide, by decide, by decide, by decide,
   fun _ => rfl, fun _ => rfl, fun _ => rfl, fun _ => rfl, fun _ => rfl⟩

/-- C1 counterexample: the pair --increase / --decrease is NOT
rejected; the parser accepts both flags together (each conflicts
only with set and get), contradicting the claim for that pair. -/
theorem C1_counterexample :
    (parseArgs ["-i", "-d"]).isOk = true ∧
    (parseArgs ["--increase", "--decrease"]).isOk = true ∧
    parseArgs ["-i", "-d"] = Except.ok
      { increase := some 5, decrease := some 5, set := none, get := false,
        timeout := 2000, fade_time := 100, steps := 25 } :=
  ⟨by decide, by decide, rfl⟩

/-- C1 (amended): every pair of action flags drawn from
{--increase, --decrease, --set, --get} EXCEPT the pair
--increase / --decrease is rejected by the parser, with exit 2 and
an empty event trace (no call to xbacklight or the notifier). -/
theorem C1_conflicting_pairs :
    ((parseArgs ["-i", "-s", "50"]).isOk = false ∧
     (parseArgs ["-i", "-g"]).isOk = false ∧
     (parseArgs ["-d", "-s", "50"]).isOk = false ∧
     (parseArgs ["-d", "-g"]).isOk = false ∧
     (parseArgs ["-s", "50", "-g"]).isOk = false) ∧
    ((parseArgs ["--increase", "--set", "50"]).isOk = false ∧
     (parseArgs ["--increase", "--get"]).isOk = false ∧
     (parseArgs ["--decrease", "--set", "50"]).isOk = false ∧
     (parseArgs ["--decrease", "--get"]).isOk = false ∧
     (parseArgs ["--set", "50", "--get"]).isOk = false) ∧
    ((∀ env, run_program ["-i", "-s", "50"] env = ([], 2)) ∧
     (∀ env, run_program ["-i", "-g"] env = ([], 2)) ∧
     (∀ env, run_program ["-d", "-s", "50"] env = ([], 2)) ∧
     (∀ env, run_program ["-d", "-g"] env = ([], 2)) ∧
     (∀ env, run_program ["-s", "50", "-g"] env = ([], 2))) :=
  ⟨⟨by decide, by decide, by decide, by decide, by decide⟩,
   ⟨by decide, by decide, by decide, by decide, by decide⟩,
   ⟨fun _ => rfl, fun _ => rfl, fun _ => rfl, fun _ => rfl, fun _ => rfl⟩⟩

/-- C2 counterexample: an output whose rounded value exceeds 255
("300") does not make the read fail; it returns 255 (the `as u8`
cast saturates). Likewise a negative output returns 0. -/
theorem C2_counterexample :
    get_current_brightness (envOutput "300") = some 255 ∧
    get_current_brightness (envOutput "-7") = some 0 :=
  ⟨by decide, by decide⟩

/-- C2 (amended): the read fails exactly when the process cannot be
spawned, its exit status is non-success, or its trimmed output does
not parse as a decimal number; a parsed value whose rounding is out
of [0, 255] does not cause failure (it saturates). -/
theorem C2_get_failure_iff (env : Env) :
    get_current_brightness env = none ↔
      (env.getOutput = none ∨
        ∃ out, env.getOutput = some out ∧
          (out.success = false ∨ parseDecimal (rustTrim out.stdout) = none)) := by
  unfold get_current_brightness
  cases h : env.getOutput with
  | none => simp
  | some out =>
    cases hs : out.success with
    | false => simp [hs]
    | true =>
      cases hp : parseDecimal (rustTrim out.stdout) with
      | none => simp [hs, hp]
      | some v => simp [hs, hp]

/-- C10: whenever the trimmed output parses as a finite decimal
number, the read returns a value in [0, 255]: the conversion
saturates, rounded values above 255 give 255, negative values give
0, and in-range values pass through unchanged. -/
theorem C10_saturating_conversion (env : Env) (out : ProcOutput) (q : ℚ)
    (hout : env.getOutput = some out) (hs : out.success = true)
    (hp : parseDecimal (rustTrim out.stdout) = some q) :
    get_current_brightness env = some (toU8sat (roundRust q)) ∧
    toU8sat (roundRust q) ≤ 255 ∧
    (255 < roundRust q → toU8sat (roundRust q) = 255) ∧
    (roundRust q < 0 → toU8sat (roundRust q) = 0) ∧
    (0 ≤ roundRust q → roundRust q ≤ 255 →
      (toU8sat (roundRust q) : Int) = roundRust q) := by
  have h1 : get_current_brightness env = some (toU8sat (roundRust q)) := by
    unfold get_current_brightness
    rw [hout]
    simp [hs, hp]
  refine ⟨h1, ?_, ?_, ?_, ?_⟩ <;> unfold toU8sat <;> omega

/-- Witness for C10 at output "300": the read succeeds with 255. -/
theorem C10_saturating_conversion_witness :
    get_current_brightness (envOutput "300") = some (toU8sat (roundRust 300)) ∧
    toU8sat (roundRust 300) ≤ 255 ∧
    (255 < roundRust 300 → toU8sat (roundRust 300) = 255) ∧
    (roundRust 300 < 0 → toU8sat (roundRust 300) = 0) ∧
    (0 ≤ roundRust 300 → roundRust 300 ≤ 255 →
      (toU8sat (roundRust 300) : Int) = roundRust 300) :=
  C10_saturating_conversion (envOutput "300")
    { success := true, stdout := "300" } 300 rfl rfl (by decide)

/-- C9: when the parsed arguments hold both an increase and a
decrease value, the adjustment command uses only the -inc
subcommand with the increase value; the decrease value does not
influence the command. -/
theorem C9_increase_shadows_decrease (args : Args) (i d : Nat)
    (hi : args.increase = some i) (_hd : args.decrease = some d) :
    adjust_cmd args =
      some ["-inc", toString i, "-time", toString args.fade_time,
            "-steps", toString args.steps] ∧
    (∀ d2, adjust_cmd { args with decrease := d2 } = adjust_cmd args) := by
  refine ⟨?_, fun d2 => ?_⟩ <;> simp [adjust_cmd, hi]

/-- Witness for C9: with increase 7 and decrease 3 the command is
-inc 7 (the decrease value 3 appears nowhere). -/
theorem C9_increase_shadows_decrease_witness :
    adjust_cmd
      { increase := some 7, decrease := some 3, set := none, get := false,
        timeout := 2000, fade_time := 100, steps := 25 } =
      some ["-inc", "7", "-time", "100", "-steps", "25"] :=
  ((C9_increase_shadows_decrease
      { increase := some 7, decrease := some 3, set := none, get := false,
        timeout := 2000, fade_time := 100, steps := 25 } 7 3 rfl rfl).1).trans
    (by decide)

end BrightnessNotifier

namespace BrightnessNotifier

lemma phaseOrdered_cons_other (e : Event) (l : List Event)
    (h1 : e.isGetCall = false) (h2 : e.isNotify = false)
    (hl : phaseOrdered l = true) : phaseOrdered (e :: l) = true := by
  simp [phaseOrdered, h1, h2, hl]

lemma isGetCall_spawn_set (a b c : String) :
    Event.isGetCall (Event.spawn ["-set", a, "-time", b, "-steps", c]) = false := by
  simp [Event.isGetCall]

lemma isGetCall_spawn_inc (a b c : String) :
    Event.isGetCall (Event.spawn ["-inc", a, "-time", b, "-steps", c]) = false := by
  simp [Event.isGetCall]

lemma isGetCall_spawn_dec (a b c : String) :
    Event.isGetCall (Event.spawn ["-dec", a, "-time", b, "-steps", c]) = false := by
  simp [Event.isGetCall]

lemma phaseOrdered_display (t : Int) (env : Env) :
    phaseOrdered (display_notification t env).1 = true := by
  unfold display_notification
  cases hget : get_current_brightness env with
  | none => simp [phaseOrdered, Event.isGetCall, Event.isNotify, Event.isMutCall]
  | some b =>
    cases henv : env.notifyErr <;>
      simp [phaseOrdered, Event.isGetCall, Event.isNotify, Event.isMutCall]

lemma phaseOrdered_mainRun (args : Args) (env : Env) :
    phaseOrdered (mainRun args env).1 = true := by
  unfold mainRun
  cases hget : args.get with
  | true => simpa using phaseOrdered_display args.timeout env
  | false =>
    simp only [Bool.false_eq_true, if_false]
    cases hset : args.set with
    | some target =>
      cases hok : env.setOk with
      | false =>
        simp [set_brightness, hok, phaseOrdered, Event.isGetCall, Event.isNotify,
              Event.isMutCall, isGetCall_spawn_set]
      | true =>
        simp only [set_brightness, hok, Bool.not_true, Bool.false_eq_true, if_false]
        simpa using phaseOrdered_cons_other _ _ (isGetCall_spawn_set _ _ _) rfl
          (phaseOrdered_display args.timeout env)
    | none =>
      cases hinc : args.increase with
      | some i =>
        have hcmd : adjust_cmd args =
            some ["-inc", toString i, "-time", toString args.fade_time,
                  "-steps", toString args.steps] := by
          simp [adjust_cmd, hinc]
        cases hok : env.adjustOk with
        | false =>
          simp [adjust_brightness, hcmd, hok, phaseOrdered, Event.isGetCall,
                Event.isNotify, Event.isMutCall, isGetCall_spawn_inc]
        | true =>
          simp only [adjust_brightness, hcmd, hok, Bool.not_true,
                     Bool.false_eq_true, if_false, hinc]
          simpa using phaseOrdered_cons_other _ _ (isGetCall_spawn_inc _ _ _) rfl
            (phaseOrdered_display args.timeout env)
      | none =>
        cases hdec : args.decrease with
        | some d =>
          have hcmd : adjust_cmd args =
              some ["-dec", toString d, "-time", toString args.fade_time,
                    "-steps", toString args.steps] := by
            simp [adjust_cmd, hinc, hdec]
          cases hok : env.adjustOk with
          | false =>
            simp [adjust_brightness, hcmd, hok, phaseOrdered, Event.isGetCall,
                  Event.isNotify, Event.isMutCall, isGetCall_spawn_dec]
          | true =>
            simp only [adjust_brightness, hcmd, hok, Bool.not_true,
                       Bool.false_eq_true, if_false, hinc, hdec]
            simpa using phaseOrdered_cons_other _ _ (isGetCall_spawn_dec _ _ _) rfl
              (phaseOrdered_display args.timeout env)
        | none =>
          simp only [hinc, hdec, Option.isSome_none, Bool.false_eq_true, or_false,
                     if_false]
          simpa using phaseOrdered_display args.timeout env

/-- C3: in every run that requests a mutation, the trace respects
the phase discipline (every mutation call precedes every read and
every read precedes every notification dispatch); concretely with
-s 50 and a succeeding environment, set is called exactly once
before get, get exactly once, and the notifier exactly once after
get. -/
theorem C3_ordering :
    (∀ args env, args.get = false →
        (args.set.isSome ∨ args.increase.isSome ∨ args.decrease.isSome) →
        phaseOrdered (mainRun args env).1 = true) ∧
    (∃ a, parseArgs ["-s", "50"] = Except.ok a ∧
        mainRun a (envOutput "50") =
          ([Event.spawn ["-set", "50", "-time", "100", "-steps", "25"],
            Event.spawn ["-get"],
            Event.notify "Brightness" "50% Brightness"
              "display-brightness-medium" 2000 1,
            Event.stdout "Current brightness: 50%"], 0) ∧
        (mainRun a (envOutput "50")).1.countP Event.isMutCall = 1 ∧
        (mainRun a (envOutput "50")).1.countP Event.isGetCall = 1 ∧
        (mainRun a (envOutput "50")).1.countP Event.isNotify = 1 ∧
        phaseOrdered (mainRun a (envOutput "50")).1 = true) := by
  refine ⟨fun args env _ _ => phaseOrdered_mainRun args env, ?_⟩
  refine ⟨{ increase := none, decrease := none, set := some 50, get := false,
            timeout := 2000, fade_time := 100, steps := 25 }, rfl, ?_, ?_, ?_, ?_, ?_⟩
    <;> decide

/-- Witness for C3's quantified part: the -s 50 run against the
succeeding environment is phase ordered. -/
theorem C3_ordering_witness :
    phaseOrdered (mainRun
      { increase := none, decrease := none, set := some 50, get := false,
        timeout := 2000, fade_time := 100, steps := 25 } (envOutput "50")).1 = true :=
  C3_ordering.1
    { increase := none, decrease := none, set := some 50, get := false,
      timeout := 2000, fade_time := 100, steps := 25 } (envOutput "50")
    rfl (by decide)

end BrightnessNotifier

namespace BrightnessNotifier

/-- C5: when the request is Set(target) and the set call fails, the
run emits exactly the set spawn and a stderr diagnostic naming the
target, exits non-zero, and never reaches the brightness read or
the notifier. -/
theorem C5_set_failure (args : Args) (target : Nat) (env : Env)
    (hget : args.get = false) (hset : args.set = some target)
    (hfail : env.setOk = false) :
    mainRun args env =
      ([Event.spawn ["-set", toString target, "-time", toString args.fade_time,
                     "-steps", toString args.steps],
        Event.stderr ("Error: failed to set brightness to "
                      ++ toString target ++ ".")], 1) ∧
    (mainRun args env).2 ≠ 0 ∧
    (∃ pre post,
      Event.stderr (pre ++ toString target ++ post) ∈ (mainRun args env).1) ∧
    (mainRun args env).1.all (fun e => !e.isGetCall && !e.isNotify) = true := by
  have h : mainRun args env =
      ([Event.spawn ["-set", toString target, "-time", toString args.fade_time,
                     "-steps", toString args.steps],
        Event.stderr ("Error: failed to set brightness to "
                      ++ toString target ++ ".")], 1) := by
    unfold mainRun set_brightness
    simp [hget, hset, hfail]
  refine ⟨h, by rw [h]; simp, ?_, ?_⟩
  · refine ⟨"Error: failed to set brightness to ", ".", ?_⟩
    rw [h]
    simp
  · rw [h]
    have hstderr : ∀ s, Event.isGetCall (Event.stderr s) = false := fun _ => rfl
    simp [Event.isNotify, isGetCall_spawn_set, hstderr]

/-- Witness for C5 at -s 50 with a failing controller. -/
theorem C5_set_failure_witness :
    mainRun
      { increase := none, decrease := none, set := some 50, get := false,
        timeout := 2000, fade_time := 100, steps := 25 }
      { envOutput "50" with setOk := false } =
      ([Event.spawn ["-set", toString 50, "-time", toString 100,
                     "-steps", toString 25],
        Event.stderr ("Error: failed to set brightness to "
                      ++ toString 50 ++ ".")], 1) :=
  (C5_set_failure
    { increase := none, decrease := none, set := some 50, get := false,
      timeout := 2000, fade_time := 100, steps := 25 }
    50 { envOutput "50" with setOk := false } rfl rfl rfl).1

/-- C8: every dispatched notification carries the fixed identifier
1, the caller's timeout, and the body "N% Brightness" for the
brightness N just read; a successful dispatch prints
"Current brightness: N%" on standard output. -/
theorem C8_notification_contents (env : Env) (t : Int) (b : Nat)
    (hb : get_current_brightness env = some b) :
    (∃ icon, Event.notify "Brightness" (toString b ++ "% Brightness") icon t 1
        ∈ (display_notification t env).1) ∧
    (∀ s body icon tm id,
        Event.notify s body icon tm id ∈ (display_notification t env).1 →
        id = 1 ∧ body = toString b ++ "% Brightness" ∧ tm = t) ∧
    (env.notifyErr = none →
        Event.stdout ("Current brightness: " ++ toString b ++ "%")
          ∈ (display_notification t env).1) := by
  unfold display_notification
  rw [hb]
  cases henv : env.notifyErr with
  | none =>
    refine ⟨⟨brightnessIcon b, by simp [brightnessBody]⟩, ?_, fun _ => by simp⟩
    intro s body icon tm id hmem
    simp only [List.mem_cons, List.mem_singleton] at hmem
    rcases hmem with h | h | h | h
    · cases h
    · injection h with h1 h2 h3 h4 h5
      exact ⟨h5.symm ▸ rfl, by rw [h2]; rfl, h4.symm ▸ rfl⟩
    · cases h
    · cases h
  | some e =>
    refine ⟨⟨brightnessIcon b, by simp [brightnessBody]⟩, ?_, fun hc => by cases hc⟩
    intro s body icon tm id hmem
    simp only [List.mem_cons, List.mem_singleton] at hmem
    rcases hmem with h | h | h | h
    · cases h
    · injection h with h1 h2 h3 h4 h5
      exact ⟨h5.symm ▸ rfl, by rw [h2]; rfl, h4.symm ▸ rfl⟩
    · cases h
    · cases h

/-- Witness for C8 at a read of 42 with timeout 2000. -/
theorem C8_notification_contents_witness :
    (∃ icon, Event.notify "Brightness" (toString 42 ++ "% Brightness") icon 2000 1
        ∈ (display_notification 2000 (envOutput "42")).1) ∧
    (∀ s body icon tm id,
        Event.notify s body icon tm id
          ∈ (display_notification 2000 (envOutput "42")).1 →
        id = 1 ∧ body = toString 42 ++ "% Brightness" ∧ tm = 2000) ∧
    ((envOutput "42").notifyErr = none →
        Event.stdout ("Current brightness: " ++ toString 42 ++ "%")
          ∈ (display_notification 2000 (envOutput "42")).1) :=
  C8_notification_contents (envOutput "42") 2000 42 (by decide)

end BrightnessNotifier
